import Mathlib

/-!
Shallow embedding of the confidence-scoring and suggestion pipeline of
`backend/app/ai_suggestions.py`, the severity categorization of
`backend/app/analytics.py`, and the caller defaults of `backend/app/main.py`.

Python strings are Lean `String`s; Python floats are embedded as `ℚ` (all
arithmetic in the scorer is on small decimal constants, written as explicit
fractions: `0.5` is `5/10`, and so on); Python dicts for findings are a
structure with `Option String` fields, `none` modelling an absent key (so
`d.get("type", "")` becomes `(f.type).getD ""` and `d["type"]` on a missing
key becomes a raised `KeyError`, modelled with `Except`).  The external Groq
collaborator and the presence of `GROQ_API_KEY` are an explicit environment:
`llm` maps the rendered prompt to either the generated content or the message
of the exception the call raised.
-/

namespace AICloudMisconfig

/-- Boolean test that the first character list is an initial segment of the
second; building block for Python's substring operator `in`. -/
def charListStarts : List Char → List Char → Bool
  | [], _ => true
  | _ :: _, [] => false
  | a :: as, b :: bs => a == b && charListStarts as bs

/-- Boolean test that `needle` occurs contiguously inside `hay`;
Python's `needle in hay` on strings, over the character lists. -/
def charListContainsSub (needle : List Char) : List Char → Bool
  | [] => needle.isEmpty
  | b :: bs => charListStarts needle (b :: bs) || charListContainsSub needle bs

/-- Python's `needle in hay` for strings. -/
def strContainsSub (hay needle : String) : Bool :=
  charListContainsSub needle.toList hay.toList

/-- Python's `s.lower()`: lower-case every character.  (Defined directly as a
map over the character data so that it is kernel-executable; all issue-kind
strings in this repository are ASCII, where this agrees with Python.) -/
def pyLower (s : String) : String :=
  ⟨s.data.map Char.toLower⟩

/-- Python's binary `min` on numbers, as an executable selection. -/
def pymin (a b : ℚ) : ℚ := if a ≤ b then a else b

/-- Python's binary `max` on numbers, as an executable selection. -/
def pymax (a b : ℚ) : ℚ := if b ≤ a then a else b

theorem pymin_eq_min (a b : ℚ) : pymin a b = min a b := by
  simp [pymin, min_def]

theorem pymax_eq_max (a b : ℚ) : pymax a b = max a b := by
  rcases le_or_lt b a with h | h
  · rw [max_eq_left h]; exact if_pos h
  · rw [max_eq_right h.le]; exact if_neg (not_le.mpr h)

/-- Python's `round(x, 2)`: round to two decimal places, ties to even
(banker's rounding, as Python's `round` does). -/
def pyRound2 (q : ℚ) : ℚ :=
  let x := q * 100
  let f : ℤ := ⌊x⌋
  let r : ℤ :=
    if x - f < 1/2 then f
    else if (1:ℚ)/2 < x - f then f + 1
    else if f % 2 = 0 then f else f + 1
  (r : ℚ) / 100

/-- One raw finding, as the Python dicts produced by the scanner:
each field is `some v` when the key is present (possibly with an empty
value) and `none` when the key is absent. -/
structure RawFinding where
  type : Option String
  resource_id : Option String
  details : Option String
deriving DecidableEq

/-- Embedding of `calculate_confidence_score` (ai_suggestions.py, lines 77-99):
base 0.5, risk bump chosen by substring tests on the lower-cased `type` value
(defaulting to `""` when the key is absent, as
`misconfiguration.get("type", "")` does), strictness multiplier, clamp to
[0, 1].  Any strictness string other than "strict" and "lenient" falls
through to no multiplier. -/
def calculate_confidence_score (m : RawFinding)
    (strictness_level : String := "balanced") : ℚ :=
  let issue_type := pyLower ((m.type).getD "")
  let base1 : ℚ :=
    if strContainsSub issue_type "public" || strContainsSub issue_type "unrestricted" then
      5/10 + 4/10
    else if strContainsSub issue_type "permissive" || strContainsSub issue_type "iam" then
      5/10 + 2/10
    else
      5/10 + 1/10
  let base2 : ℚ :=
    if strictness_level == "strict" then base1 * (12/10)
    else if strictness_level == "lenient" then base1 * (8/10)
    else base1
  pymin (pymax base2 0) 1

/-- Python truthiness test `not x` for an optional string: true when the
value is absent (`None`) or the empty string. -/
def pyFalsy (o : Option String) : Bool := (o.getD "") == ""

/-- The result dict of `get_remediation_suggestions`: a `suggestion` text and
a categorical `confidence`. -/
structure Suggestion where
  suggestion : String
  confidence : String
deriving DecidableEq

/-- The process environment of ai_suggestions.py: the optional
`GROQ_API_KEY` value and the external Groq chat-completion call, mapping the
rendered prompt to either the generated message content or the message of
the exception the call raised. -/
structure Env where
  apiKey : Option String
  llm : String → Except String String

/-- The fixed placeholder returned by `get_remediation_suggestions` when no
API key is configured (ai_suggestions.py, lines 22-26). -/
def noApiKeyMsg : String :=
  "AI suggestions unavailable: GROQ_API_KEY not configured. Please set your Groq API key in the .env file."

/-- The prompt f-string of `get_remediation_suggestions` (ai_suggestions.py,
lines 28-49), with the three dict accesses substituted. -/
def buildPrompt (t r d : String) : String :=
  "\n    You are a cloud security expert. Analyze this cloud misconfiguration and provide specific remediation guidance.\n\n    Issue: "
    ++ t ++ "\n    Resource: " ++ r ++ "\n    Problem: " ++ d ++
    "\n\n    Provide a structured response with:\n\n    🔍 SECURITY RISK:\n    [Brief explanation of why this is dangerous]\n\n    🛠️ IMMEDIATE FIX:\n    [Step-by-step remediation with specific commands]\n\n    ⚡ QUICK CLI COMMANDS:\n    [AWS CLI commands to fix this issue]\n\n    🔒 PREVENTION:\n    [Best practices to prevent this in the future]\n\n    Keep it concise but actionable. Use bullet points and code blocks where helpful.\n    "

/-- Embedding of `get_remediation_suggestions` (ai_suggestions.py, lines
17-75).  The prompt construction accesses `misconfiguration['type']`,
`['resource_id']` and `['details']` outside the `try` block, so a missing
key there raises a `KeyError` (modelled as `Except.error "KeyError"`); any
exception raised by the Groq call itself is caught and turned into a
placeholder result. -/
def get_remediation_suggestions (env : Env) (m : RawFinding) :
    Except String Suggestion :=
  if pyFalsy env.apiKey then
    .ok ⟨noApiKeyMsg, "low"⟩
  else
    match m.type, m.resource_id, m.details with
    | some t, some r, some d =>
      match env.llm (buildPrompt t r d) with
      | .ok content =>
        .ok ⟨content,
          if strContainsSub (pyLower t) "public" || strContainsSub (pyLower t) "unrestricted"
          then "high" else "medium"⟩
      | .error e => .ok ⟨"Unable to generate AI suggestion: " ++ e, "low"⟩
    | _, _, _ => .error "KeyError"

/-- The output dict appended by `get_bulk_suggestions` for one surviving
finding: the spread original finding plus the AI suggestion text, the
categorical confidence, the rounded numeric score, and the strictness level
used. -/
structure EnrichedFinding where
  config : RawFinding
  ai_suggestion : String
  confidence : String
  confidence_score : ℚ
  strictness_level : String
deriving DecidableEq

/-- Embedding of `get_bulk_suggestions` (ai_suggestions.py, lines 101-131):
score each finding, skip it when the score is below the threshold, otherwise
enrich it and band the score for display, preserving input order.  The
Python defaults `ai_confidence_threshold=0.7` and
`strictness_level="balanced"` are default arguments here too.  An exception
raised while processing any finding (only `get_remediation_suggestions` can
raise, on a missing dict key) aborts the whole call, so no list is returned. -/
def get_bulk_suggestions (env : Env) (misconfigurations : List RawFinding)
    (ai_confidence_threshold : ℚ := 7/10) (strictness_level : String := "balanced") :
    Except String (List EnrichedFinding) :=
  match misconfigurations with
  | [] => .ok []
  | config :: rest =>
    let confidence_score := calculate_confidence_score config strictness_level
    if confidence_score < ai_confidence_threshold then
      get_bulk_suggestions env rest ai_confidence_threshold strictness_level
    else
      match get_remediation_suggestions env config with
      | .error e => .error e
      | .ok suggestion =>
        let confidence_category : String :=
          if confidence_score ≥ 8/10 then "high"
          else if confidence_score ≥ 6/10 then "medium"
          else "low"
        match get_bulk_suggestions env rest ai_confidence_threshold strictness_level with
        | .error e => .error e
        | .ok tailResults =>
          .ok ({ config := config, ai_suggestion := suggestion.suggestion,
                 confidence := confidence_category,
                 confidence_score := pyRound2 confidence_score,
                 strictness_level := strictness_level } :: tailResults)

/-- The per-issue branch of `AnalyticsService._categorize_by_severity`
(analytics.py, lines 120-132): severity from case-sensitive substring tests
on the issue's `type` value. -/
def severityOf (issue_type : String) : String :=
  if strContainsSub issue_type "Public" || strContainsSub issue_type "Unrestricted" then
    "High"
  else if strContainsSub issue_type "IAM" || strContainsSub issue_type "Permissive" then
    "Medium"
  else
    "Low"

/-- Embedding of `AnalyticsService._categorize_by_severity` (analytics.py,
lines 120-132) as the count the returned dict holds for one severity key:
the loop increments `severity_count[sev]` once per issue whose branch picks
`sev`, with `issue.get("type", "")` defaulting an absent key to `""`. -/
def categorize_by_severity (misconfigurations : List RawFinding) (severity : String) : Nat :=
  misconfigurations.foldl
    (fun acc issue => if severityOf ((issue.type).getD "") == severity then acc + 1 else acc) 0

/-- Modelled from the spec: case-insensitive substring matching as §3 and
§4.1 word it ("matching is case-insensitive substring matching").  Used only
by the spec-side score formula below, to be compared with the code-side
definitions. -/
def specContainsCI (hay needle : String) : Bool :=
  strContainsSub (pyLower hay) needle

/-- Modelled from the spec (§4.2 step 2): the risk bump — +0.4 for the High
pattern, +0.2 for the Medium pattern, +0.1 otherwise. -/
def spec_bump (kind : String) : ℚ :=
  if specContainsCI kind "public" || specContainsCI kind "unrestricted" then 4/10
  else if specContainsCI kind "permissive" || specContainsCI kind "iam" then 2/10
  else 1/10

/-- Modelled from the spec (§4.2 step 3): the strictness multiplier —
strict ×1.2, lenient ×0.8, balanced ×1.0. -/
def spec_multiplier (policy : String) : ℚ :=
  if policy == "strict" then 12/10
  else if policy == "lenient" then 8/10
  else 1

/-- Modelled from the spec (§4.2 step 4): clamp to [0, 1] inclusive. -/
def spec_clamp (x : ℚ) : ℚ := min (max x 0) 1

/-- Modelled from the spec (§4.2): the whole score formula,
clamp((0.5 + bump) × multiplier). -/
def spec_score (kind policy : String) : ℚ :=
  spec_clamp ((5/10 + spec_bump kind) * spec_multiplier policy)

/-- Modelled from the spec (§4.2, banding): the display band of a final
score — "high" at or above 0.8, "medium" at or above 0.6, else "low". -/
def band (score : ℚ) : String :=
  if score ≥ 8/10 then "high"
  else if score ≥ 6/10 then "medium"
  else "low"

/-- The first end-to-end scenario finding from the specification's §8. -/
def b1f : RawFinding := ⟨some "Public S3 Bucket", some "b1", some "x"⟩

/-- The second end-to-end scenario finding from the specification's §8. -/
def r1f : RawFinding := ⟨some "Some Other Issue", some "r1", some "y"⟩

/-- A malformed finding: all three required fields present but empty. -/
def emptyF : RawFinding := ⟨some "", some "", some ""⟩

/-- A concrete environment with no API key configured. -/
def envNoKey : Env := ⟨none, fun _ => .error "boom"⟩

/-- A concrete environment in which the Groq call always raises. -/
def envFailKey : Env := ⟨some "k", fun _ => .error "API Error"⟩

theorem score_b1_balanced : calculate_confidence_score b1f "balanced" = 9/10 := by
  have h1 : strContainsSub (pyLower "Public S3 Bucket") "public" = true := by decide
  have hs1 : ("balanced" == "strict") = false := by decide
  have hs2 : ("balanced" == "lenient") = false := by decide
  simp only [calculate_confidence_score, b1f, Option.getD_some, h1, hs1, hs2, Bool.true_or,
    if_true, if_false]
  norm_num [pymin, pymax]

theorem score_r1_balanced : calculate_confidence_score r1f "balanced" = 6/10 := by
  have h1 : strContainsSub (pyLower "Some Other Issue") "public" = false := by decide
  have h2 : strContainsSub (pyLower "Some Other Issue") "unrestricted" = false := by decide
  have h3 : strContainsSub (pyLower "Some Other Issue") "permissive" = false := by decide
  have h4 : strContainsSub (pyLower "Some Other Issue") "iam" = false := by decide
  have hs1 : ("balanced" == "strict") = false := by decide
  have hs2 : ("balanced" == "lenient") = false := by decide
  simp only [calculate_confidence_score, r1f, Option.getD_some, h1, h2, h3, h4, hs1, hs2,
    Bool.or_self, Bool.false_or, if_true, if_false]
  norm_num [pymin, pymax]

theorem score_empty_balanced : calculate_confidence_score emptyF "balanced" = 6/10 := by
  have h1 : strContainsSub (pyLower "") "public" = false := by decide
  have h2 : strContainsSub (pyLower "") "unrestricted" = false := by decide
  have h3 : strContainsSub (pyLower "") "permissive" = false := by decide
  have h4 : strContainsSub (pyLower "") "iam" = false := by decide
  have hs1 : ("balanced" == "strict") = false := by decide
  have hs2 : ("balanced" == "lenient") = false := by decide
  simp only [calculate_confidence_score, emptyF, Option.getD_some, h1, h2, h3, h4, hs1, hs2,
    Bool.or_self, Bool.false_or, if_true, if_false]
  norm_num [pymin, pymax]

theorem score_b1_bogus : calculate_confidence_score b1f "bogus" = 9/10 := by
  have h1 : strContainsSub (pyLower "Public S3 Bucket") "public" = true := by decide
  have hs1 : ("bogus" == "strict") = false := by decide
  have hs2 : ("bogus" == "lenient") = false := by decide
  simp only [calculate_confidence_score, b1f, Option.getD_some, h1, hs1, hs2, Bool.true_or,
    if_true, if_false]
  norm_num [pymin, pymax]

theorem pyRound2_nine_tenths : pyRound2 (9/10) = 9/10 := by
  norm_num [pyRound2]

theorem pyRound2_six_tenths : pyRound2 (3/5) = 3/5 := by
  norm_num [pyRound2]

theorem get_remediation_noKey (m : RawFinding) :
    get_remediation_suggestions envNoKey m = .ok ⟨noApiKeyMsg, "low"⟩ := rfl

theorem get_remediation_ok_of_some (env : Env) (m : RawFinding) (t r d : String)
    (ht : m.type = some t) (hr : m.resource_id = some r) (hd : m.details = some d) :
    ∃ s, get_remediation_suggestions env m = .ok s := by
  unfold get_remediation_suggestions
  cases hk : pyFalsy env.apiKey
  · rw [ht, hr, hd]
    simp only [hk, Bool.false_eq_true, if_false]
    cases h : env.llm (buildPrompt t r d)
    · exact ⟨_, rfl⟩
    · exact ⟨_, rfl⟩
  · refine ⟨⟨noApiKeyMsg, "low"⟩, ?_⟩
    simp [hk]

theorem get_remediation_falsy (env : Env) (hk : pyFalsy env.apiKey = true)
    (m : RawFinding) :
    get_remediation_suggestions env m = .ok ⟨noApiKeyMsg, "low"⟩ := by
  unfold get_remediation_suggestions
  simp [hk]

theorem append_ne_empty_of_left (a b : String) (ha : a.data ≠ []) : a ++ b ≠ "" := by
  intro h
  have hd := congrArg String.data h
  rw [String.data_append] at hd
  have he : ("" : String).data = [] := rfl
  rw [he] at hd
  exact ha (List.append_eq_nil.mp hd).1

theorem get_remediation_fail_nonempty (env : Env)
    (hfail : ∀ p, ∃ e, env.llm p = .error e) (m : RawFinding) (s : Suggestion)
    (h : get_remediation_suggestions env m = .ok s) : s.suggestion ≠ "" := by
  unfold get_remediation_suggestions at h
  cases hk : pyFalsy env.apiKey with
  | true =>
    simp only [hk, if_true] at h
    cases h
    decide
  | false =>
    simp only [hk, Bool.false_eq_true, if_false] at h
    obtain ⟨mt, mr, md⟩ := m
    cases mt with
    | none => cases mr <;> cases md <;> simp_all
    | some t =>
      cases mr with
      | none => cases md <;> simp_all
      | some r =>
        cases md with
        | none => simp_all
        | some d =>
          dsimp only at h
          obtain ⟨e, he⟩ := hfail (buildPrompt t r d)
          rw [he] at h
          cases h
          apply append_ne_empty_of_left
          decide

theorem bulk_map_config_eq_filter (env : Env) (th : ℚ) (sl : String) :
    ∀ (ms : List RawFinding) (l : List EnrichedFinding),
      get_bulk_suggestions env ms th sl = .ok l →
      l.map (fun e => e.config)
        = ms.filter (fun c => decide (th ≤ calculate_confidence_score c sl)) := by
  intro ms
  induction ms with
  | nil =>
    intro l h
    simp only [get_bulk_suggestions] at h
    cases h
    rfl
  | cons c rest ih =>
    intro l h
    simp only [get_bulk_suggestions] at h
    by_cases hlt : calculate_confidence_score c sl < th
    · rw [if_pos hlt] at h
      have hrec := ih l h
      rw [List.filter_cons_of_neg]
      · exact hrec
      · simp [not_le.mpr hlt]
    · rw [if_neg hlt] at h
      cases hr : get_remediation_suggestions env c with
      | error e => rw [hr] at h; cases h
      | ok s =>
        rw [hr] at h
        cases hrest : get_bulk_suggestions env rest th sl with
        | error e2 => rw [hrest] at h; cases h
        | ok tl =>
          rw [hrest] at h
          cases h
          rw [List.filter_cons_of_pos]
          · simp only [List.map_cons]
            rw [ih tl hrest]
          · simp [not_lt.mp hlt]

theorem bulk_mem_props (env : Env) (th : ℚ) (sl : String) :
    ∀ (ms : List RawFinding) (l : List EnrichedFinding),
      get_bulk_suggestions env ms th sl = .ok l →
      ∀ x ∈ l, x.confidence = band (calculate_confidence_score x.config sl)
        ∧ x.confidence_score = pyRound2 (calculate_confidence_score x.config sl)
        ∧ x.strictness_level = sl := by
  intro ms
  induction ms with
  | nil =>
    intro l h
    simp only [get_bulk_suggestions] at h
    cases h
    intro x hx
    cases hx
  | cons c rest ih =>
    intro l h
    simp only [get_bulk_suggestions] at h
    by_cases hlt : calculate_confidence_score c sl < th
    · rw [if_pos hlt] at h
      exact ih l h
    · rw [if_neg hlt] at h
      cases hr : get_remediation_suggestions env c with
      | error e => rw [hr] at h; cases h
      | ok s =>
        rw [hr] at h
        cases hrest : get_bulk_suggestions env rest th sl with
        | error e2 => rw [hrest] at h; cases h
        | ok tl =>
          rw [hrest] at h
          cases h
          intro x hx
          rcases List.mem_cons.mp hx with hx | hx
          · subst hx
            exact ⟨rfl, rfl, rfl⟩
          · exact ih tl hrest x hx

theorem bulk_fail_all_nonempty (env : Env)
    (hfail : ∀ p, ∃ e, env.llm p = .error e) (th : ℚ) (sl : String) :
    ∀ (ms : List RawFinding) (l : List EnrichedFinding),
      get_bulk_suggestions env ms th sl = .ok l →
      ∀ x ∈ l, x.ai_suggestion ≠ "" := by
  intro ms
  induction ms with
  | nil =>
    intro l h
    simp only [get_bulk_suggestions] at h
    cases h
    intro x hx
    cases hx
  | cons c rest ih =>
    intro l h
    simp only [get_bulk_suggestions] at h
    by_cases hlt : calculate_confidence_score c sl < th
    · rw [if_pos hlt] at h
      exact ih l h
    · rw [if_neg hlt] at h
      cases hr : get_remediation_suggestions env c with
      | error e => rw [hr] at h; cases h
      | ok s =>
        rw [hr] at h
        cases hrest : get_bulk_suggestions env rest th sl with
        | error e2 => rw [hrest] at h; cases h
        | ok tl =>
          rw [hrest] at h
          cases h
          intro x hx
          rcases List.mem_cons.mp hx with hx | hx
          · subst hx
            exact get_remediation_fail_nonempty env hfail c s hr
          · exact ih tl hrest x hx

theorem bulk_isOk_of_ok_remediation (env : Env) (th : ℚ) (sl : String)
    (hrem : ∀ m : RawFinding, ∃ s, get_remediation_suggestions env m = .ok s) :
    ∀ ms : List RawFinding, (get_bulk_suggestions env ms th sl).isOk = true := by
  intro ms
  induction ms with
  | nil => rfl
  | cons c rest ih =>
    simp only [get_bulk_suggestions]
    by_cases hlt : calculate_confidence_score c sl < th
    · rw [if_pos hlt]; exact ih
    · rw [if_neg hlt]
      obtain ⟨s, hs⟩ := hrem c
      rw [hs]
      cases hrest : get_bulk_suggestions env rest th sl with
      | error e => rw [hrest] at ih; cases ih
      | ok tl => rfl

theorem bulk_noKey_07 :
    get_bulk_suggestions envNoKey [b1f, r1f] (7/10) "balanced"
      = .ok [⟨b1f, noApiKeyMsg, "high", 9/10, "balanced"⟩] := by
  simp only [get_bulk_suggestions, score_b1_balanced, score_r1_balanced, get_remediation_noKey]
  norm_num [pyRound2_nine_tenths]

theorem bulk_noKey_03 :
    get_bulk_suggestions envNoKey [b1f, r1f] (3/10) "balanced"
      = .ok [⟨b1f, noApiKeyMsg, "high", 9/10, "balanced"⟩,
             ⟨r1f, noApiKeyMsg, "medium", 6/10, "balanced"⟩] := by
  simp only [get_bulk_suggestions, score_b1_balanced, score_r1_balanced, get_remediation_noKey]
  norm_num [pyRound2_nine_tenths, pyRound2_six_tenths]

theorem bulk_noKey_bogus :
    get_bulk_suggestions envNoKey [b1f] (7/10) "bogus"
      = .ok [⟨b1f, noApiKeyMsg, "high", 9/10, "bogus"⟩] := by
  simp only [get_bulk_suggestions, score_b1_bogus, get_remediation_noKey]
  norm_num [pyRound2_nine_tenths]

theorem bulk_noKey_empty :
    get_bulk_suggestions envNoKey [emptyF] (3/10) "balanced"
      = .ok [⟨emptyF, noApiKeyMsg, "medium", 6/10, "balanced"⟩] := by
  simp only [get_bulk_suggestions, score_empty_balanced, get_remediation_noKey]
  norm_num [pyRound2_six_tenths]

end AICloudMisconfig

namespace AICloudMisconfig

/-- Claim C1: for every finding and every strictness policy in the enum, the
confidence score equals clamp((0.5 + bump) × multiplier) with the bump and
multiplier of the specification's §4.2. -/
theorem claim_C1_score_refines_spec_formula (m : RawFinding) (sl : String)
    (h : sl = "strict" ∨ sl = "balanced" ∨ sl = "lenient") :
    calculate_confidence_score m sl = spec_score ((m.type).getD "") sl := by
  rcases h with h | h | h <;> subst h
  · have e1 : ("strict" == "strict") = true := by decide
    have e2 : ("strict" == "lenient") = false := by decide
    simp only [calculate_confidence_score, spec_score, spec_clamp, spec_bump, spec_multiplier,
      specContainsCI, pymin_eq_min, pymax_eq_max, e1, e2, if_true, if_false]
    split_ifs <;> norm_num
  · have e1 : ("balanced" == "strict") = false := by decide
    have e2 : ("balanced" == "lenient") = false := by decide
    simp only [calculate_confidence_score, spec_score, spec_clamp, spec_bump, spec_multiplier,
      specContainsCI, pymin_eq_min, pymax_eq_max, e1, e2, if_true, if_false]
    split_ifs <;> norm_num
  · have e1 : ("lenient" == "strict") = false := by decide
    have e2 : ("lenient" == "lenient") = true := by decide
    simp only [calculate_confidence_score, spec_score, spec_clamp, spec_bump, spec_multiplier,
      specContainsCI, pymin_eq_min, pymax_eq_max, e1, e2, if_true, if_false]
    split_ifs <;> norm_num

theorem claim_C1_witness :
    ("balanced" = "strict" ∨ "balanced" = "balanced" ∨ "balanced" = "lenient")
    ∧ calculate_confidence_score b1f "balanced" = spec_score "Public S3 Bucket" "balanced" :=
  ⟨Or.inr (Or.inl rfl),
    claim_C1_score_refines_spec_formula b1f "balanced" (Or.inr (Or.inl rfl))⟩

/-- Claim C2 counterexample: the severity categorization of analytics.py is
case-sensitive, so a kind containing lower-case "public" is classified Low,
not High as the claim states. -/
theorem claim_C2_counterexample :
    severityOf "public s3 bucket" = "Low" ∧ severityOf "public s3 bucket" ≠ "High" := by
  constructor <;> decide

/-- Claim C2 (amended): severity is High iff the kind contains "Public" or
"Unrestricted" (case-sensitively), else Medium iff it contains "IAM" or
"Permissive", else Low, with the High rule evaluated first. -/
theorem claim_C2_severity_rules (k : String) :
    (severityOf k = "High"
        ↔ (strContainsSub k "Public" || strContainsSub k "Unrestricted") = true)
    ∧ (severityOf k = "Medium"
        ↔ ((strContainsSub k "Public" || strContainsSub k "Unrestricted") = false
            ∧ (strContainsSub k "IAM" || strContainsSub k "Permissive") = true))
    ∧ (severityOf k = "Low"
        ↔ ((strContainsSub k "Public" || strContainsSub k "Unrestricted") = false
            ∧ (strContainsSub k "IAM" || strContainsSub k "Permissive") = false)) := by
  have d1 : ("High" : String) ≠ "Medium" := by decide
  have d2 : ("High" : String) ≠ "Low" := by decide
  have d3 : ("Medium" : String) ≠ "High" := by decide
  have d4 : ("Medium" : String) ≠ "Low" := by decide
  have d5 : ("Low" : String) ≠ "High" := by decide
  have d6 : ("Low" : String) ≠ "Medium" := by decide
  unfold severityOf
  cases h1 : (strContainsSub k "Public" || strContainsSub k "Unrestricted") <;>
    cases h2 : (strContainsSub k "IAM" || strContainsSub k "Permissive") <;>
      simp_all

/-- Claim C8: the score is monotone in strictness —
lenient ≤ balanced ≤ strict. -/
theorem claim_C8_score_monotone_in_strictness (m : RawFinding) :
    calculate_confidence_score m "lenient" ≤ calculate_confidence_score m "balanced"
    ∧ calculate_confidence_score m "balanced" ≤ calculate_confidence_score m "strict" := by
  have e1 : ("strict" == "strict") = true := by decide
  have e2 : ("strict" == "lenient") = false := by decide
  have e3 : ("balanced" == "strict") = false := by decide
  have e4 : ("balanced" == "lenient") = false := by decide
  have e5 : ("lenient" == "strict") = false := by decide
  have e6 : ("lenient" == "lenient") = true := by decide
  simp only [calculate_confidence_score, e1, e2, e3, e4, e5, e6, if_true, if_false]
  constructor <;> split_ifs <;> norm_num [pymin, pymax]

end AICloudMisconfig

namespace AICloudMisconfig

/-- Claim C3: a pipeline run that returns a batch retains exactly the
findings whose confidence score is at least the threshold (inclusive), in
their input order. -/
theorem claim_C3_filter_retains_iff_in_order (env : Env)
    (ms : List RawFinding) (th : ℚ) (sl : String) (l : List EnrichedFinding)
    (h : get_bulk_suggestions env ms th sl = .ok l) :
    l.map (fun e => e.config)
      = ms.filter (fun c => decide (th ≤ calculate_confidence_score c sl)) :=
  bulk_map_config_eq_filter env th sl ms l h

theorem claim_C3_witness :
    List.map (fun e => e.config)
        [(⟨b1f, noApiKeyMsg, "high", 9/10, "balanced"⟩ : EnrichedFinding)]
      = [b1f, r1f].filter
          (fun c => decide ((7:ℚ)/10 ≤ calculate_confidence_score c "balanced")) :=
  claim_C3_filter_retains_iff_in_order envNoKey [b1f, r1f] (7/10) "balanced" _ bulk_noKey_07

/-- Claim C4: the enricher absorbs every collaborator failure — a missing
API key or a raised exception both yield an ok result whose non-empty
placeholder embeds the error detail, and a pipeline run against an
always-failing collaborator gives every surviving finding a non-empty
remediation text. -/
theorem claim_C4_enricher_absorbs_failures :
    (∀ (env : Env) (m : RawFinding), pyFalsy env.apiKey = true →
        get_remediation_suggestions env m = .ok ⟨noApiKeyMsg, "low"⟩ ∧ noApiKeyMsg ≠ "")
    ∧ (∀ (env : Env) (m : RawFinding) (t r d e : String),
        m.type = some t → m.resource_id = some r → m.details = some d →
        pyFalsy env.apiKey = false → env.llm (buildPrompt t r d) = .error e →
        get_remediation_suggestions env m
            = .ok ⟨"Unable to generate AI suggestion: " ++ e, "low"⟩
          ∧ ("Unable to generate AI suggestion: " ++ e) ≠ "")
    ∧ (∀ (env : Env), (∀ p, ∃ e, env.llm p = .error e) →
        ∀ (ms : List RawFinding) (th : ℚ) (sl : String) (l : List EnrichedFinding),
          get_bulk_suggestions env ms th sl = .ok l →
          ∀ x ∈ l, x.ai_suggestion ≠ "") := by
  refine ⟨?_, ?_, ?_⟩
  · intro env m hk
    exact ⟨get_remediation_falsy env hk m, by decide⟩
  · intro env m t r d e ht hr hd hk he
    constructor
    · unfold get_remediation_suggestions
      rw [ht, hr, hd]
      simp only [hk, Bool.false_eq_true, if_false]
      rw [he]
    · exact append_ne_empty_of_left _ _ (by decide)
  · intro env hfail ms th sl l h
    exact bulk_fail_all_nonempty env hfail th sl ms l h

theorem claim_C4_witness :
    (get_remediation_suggestions envNoKey emptyF = .ok ⟨noApiKeyMsg, "low"⟩
      ∧ noApiKeyMsg ≠ "")
    ∧ (∀ x ∈ [(⟨b1f, noApiKeyMsg, "high", (9:ℚ)/10, "balanced"⟩ : EnrichedFinding)],
        x.ai_suggestion ≠ "") :=
  ⟨claim_C4_enricher_absorbs_failures.1 envNoKey emptyF rfl,
   claim_C4_enricher_absorbs_failures.2.2 envNoKey (fun _ => ⟨"boom", rfl⟩)
     [b1f, r1f] (7/10) "balanced" _ bulk_noKey_07⟩

/-- Claim C5 counterexample: with the out-of-enum strictness "bogus" the
batch call does not fail with a validation error — it returns an output
list. -/
theorem claim_C5_counterexample :
    get_bulk_suggestions envNoKey [b1f] (7/10) "bogus"
      = .ok [⟨b1f, noApiKeyMsg, "high", 9/10, "bogus"⟩] :=
  bulk_noKey_bogus

/-- Claim C5 (amended): a strictness value outside the enum is not rejected;
the scorer treats it exactly like "balanced" (no multiplier) and the batch
returns normally. -/
theorem claim_C5_unknown_strictness_as_balanced (m : RawFinding) (sl : String)
    (h1 : (sl == "strict") = false) (h2 : (sl == "lenient") = false) :
    calculate_confidence_score m sl = calculate_confidence_score m "balanced" := by
  have e3 : ("balanced" == "strict") = false := by decide
  have e4 : ("balanced" == "lenient") = false := by decide
  simp only [calculate_confidence_score, h1, h2, e3, e4, if_false]

theorem claim_C5_witness :
    ("bogus" == "strict") = false ∧ ("bogus" == "lenient") = false
    ∧ calculate_confidence_score b1f "bogus" = calculate_confidence_score b1f "balanced" :=
  ⟨by decide, by decide,
   claim_C5_unknown_strictness_as_balanced b1f "bogus" (by decide) (by decide)⟩

/-- Claim C6 counterexample: a batch containing a finding whose required
fields are all present but empty is not aborted — the invocation returns a
normal output list containing that finding. -/
theorem claim_C6_counterexample :
    get_bulk_suggestions envNoKey [emptyF] (3/10) "balanced"
      = .ok [⟨emptyF, noApiKeyMsg, "medium", 6/10, "balanced"⟩] :=
  bulk_noKey_empty

/-- Claim C6 (amended): the pipeline performs no input validation: with no
API key configured any batch completes whatever its findings contain, and a
finding whose three fields are present (even empty) never aborts
enrichment. -/
theorem claim_C6_no_input_validation :
    (∀ (env : Env), pyFalsy env.apiKey = true →
      ∀ (ms : List RawFinding) (th : ℚ) (sl : String),
        (get_bulk_suggestions env ms th sl).isOk = true)
    ∧ (∀ (env : Env) (m : RawFinding) (t r d : String),
        m.type = some t → m.resource_id = some r → m.details = some d →
        (get_remediation_suggestions env m).isOk = true) := by
  constructor
  · intro env hk ms th sl
    exact bulk_isOk_of_ok_remediation env th sl
      (fun m => ⟨_, get_remediation_falsy env hk m⟩) ms
  · intro env m t r d ht hr hd
    obtain ⟨s, hs⟩ := get_remediation_ok_of_some env m t r d ht hr hd
    rw [hs]
    rfl

theorem claim_C6_witness :
    pyFalsy envNoKey.apiKey = true
    ∧ (get_bulk_suggestions envNoKey [emptyF] (3/10) "balanced").isOk = true :=
  ⟨rfl, claim_C6_no_input_validation.1 envNoKey rfl [emptyF] (3/10) "balanced"⟩

/-- Claim C7: every finding surviving a pipeline run carries as its
confidence category exactly the banding of its final score (high at 0.8,
medium at 0.6), and as its stored score the rounded final score — both
functions of the score alone, not of the risk bucket. -/
theorem claim_C7_category_is_band_of_final_score (env : Env)
    (ms : List RawFinding) (th : ℚ) (sl : String) (l : List EnrichedFinding)
    (h : get_bulk_suggestions env ms th sl = .ok l) :
    ∀ x ∈ l, x.confidence = band (calculate_confidence_score x.config sl)
      ∧ x.confidence_score = pyRound2 (calculate_confidence_score x.config sl) := by
  intro x hx
  exact ⟨(bulk_mem_props env th sl ms l h x hx).1,
         (bulk_mem_props env th sl ms l h x hx).2.1⟩

theorem claim_C7_witness :
    ("high" : String) = band (calculate_confidence_score b1f "balanced")
    ∧ ((9:ℚ)/10) = pyRound2 (calculate_confidence_score b1f "balanced") := by
  have h := claim_C7_category_is_band_of_final_score envNoKey [b1f, r1f] (7/10) "balanced" _
    bulk_noKey_07 ⟨b1f, noApiKeyMsg, "high", 9/10, "balanced"⟩ (by simp)
  exact ⟨h.1, h.2⟩

/-- Claim C9: the end-to-end scenario of §8 — under balanced policy and
threshold 0.7 only b1 survives, with score 0.9 and category "high"; with
threshold 0.3 both survive and r1 gets score 0.6, category "medium" — for
any collaborator environment. -/
theorem claim_C9_end_to_end_scenario (env : Env) :
    (∃ x : EnrichedFinding,
      get_bulk_suggestions env [b1f, r1f] (7/10) "balanced" = .ok [x]
        ∧ x.config = b1f ∧ x.confidence_score = 9/10 ∧ x.confidence = "high")
    ∧ (∃ x y : EnrichedFinding,
      get_bulk_suggestions env [b1f, r1f] (3/10) "balanced" = .ok [x, y]
        ∧ x.config = b1f ∧ x.confidence_score = 9/10 ∧ x.confidence = "high"
        ∧ y.config = r1f ∧ y.confidence_score = 6/10 ∧ y.confidence = "medium") := by
  obtain ⟨s1, hs1⟩ := get_remediation_ok_of_some env b1f "Public S3 Bucket" "b1" "x" rfl rfl rfl
  obtain ⟨s2, hs2⟩ := get_remediation_ok_of_some env r1f "Some Other Issue" "r1" "y" rfl rfl rfl
  constructor
  · refine ⟨⟨b1f, s1.suggestion, "high", 9/10, "balanced"⟩, ?_, rfl, rfl, rfl⟩
    simp only [get_bulk_suggestions, score_b1_balanced, score_r1_balanced, hs1, hs2]
    norm_num [pyRound2_nine_tenths]
  · refine ⟨⟨b1f, s1.suggestion, "high", 9/10, "balanced"⟩,
            ⟨r1f, s2.suggestion, "medium", 6/10, "balanced"⟩, ?_, rfl, rfl, rfl, rfl, rfl, rfl⟩
    simp only [get_bulk_suggestions, score_b1_balanced, score_r1_balanced, hs1, hs2]
    norm_num [pyRound2_nine_tenths, pyRound2_six_tenths]

/-- Claim C10: a pipeline call without the threshold and strictness
arguments uses the explicit in-core defaults 0.7 and "balanced", and a
default invocation never emits a finding scoring below 0.7. -/
theorem claim_C10_default_arguments (env : Env) (ms : List RawFinding) :
    get_bulk_suggestions env ms = get_bulk_suggestions env ms (7/10) "balanced"
    ∧ (∀ (c : RawFinding) (l : List EnrichedFinding),
        calculate_confidence_score c "balanced" < 7/10 →
        get_bulk_suggestions env ms = .ok l →
        c ∉ l.map (fun e => e.config)) := by
  refine ⟨rfl, ?_⟩
  intro c l hlt h
  rw [bulk_map_config_eq_filter env (7/10) "balanced" ms l h]
  intro hmem
  exact absurd (of_decide_eq_true (List.mem_filter.mp hmem).2) (not_le.mpr hlt)

theorem claim_C10_witness :
    calculate_confidence_score r1f "balanced" < 7/10
    ∧ r1f ∉ List.map (fun e => e.config)
        [(⟨b1f, noApiKeyMsg, "high", (9:ℚ)/10, "balanced"⟩ : EnrichedFinding)] :=
  ⟨by rw [score_r1_balanced]; norm_num,
   (claim_C10_default_arguments envNoKey [b1f, r1f]).2 r1f _
     (by rw [score_r1_balanced]; norm_num) bulk_noKey_07⟩

end AICloudMisconfig
